import Mathlib

/-
  Verification of the job-dispatch and result-relay service
  (ktru-claude-classifier) against its specification.

  The definitions below are a shallow embedding of the Python source:
    * app/ai/anthropic_client.py     (retry classifier, batch results)
    * app/services/task_processor.py (dispatcher and batch watcher)
    * app/storage/task_store.py      (task records and state indices)
    * app/storage/outbox_store.py    (transactional outbox)
    * app/services/outbox_relay_service.py (webhook relay)
    * app/api/v1/endpoints/products.py (product-batch endpoint)
  Redis state is modelled as explicit functional state; each atomic
  pipeline becomes one pure state-transforming function.
-/

namespace KtruClassifier

/-! ## String utilities

Python's `keyword in error_message.lower()` is modelled on `List Char`.
`asciiLower` matches `str.lower` on the ASCII range, which covers every
keyword the classifier uses. -/

def asciiLower (c : Char) : Char :=
  if 65 ≤ c.toNat ∧ c.toNat ≤ 90 then Char.ofNat (c.toNat + 32) else c

def strToLower (s : String) : List Char :=
  s.data.map asciiLower

/-- Whether `needle` occurs at the start of `hay` (Python `startswith`). -/
def prefixAt : List Char → List Char → Bool
  | [], _ => true
  | _ :: _, [] => false
  | a :: as, b :: bs => a == b && prefixAt as bs

/-- Whether `needle` occurs anywhere in `hay` (Python `in` on strings). -/
def containsSub (needle : List Char) : List Char → Bool
  | [] => needle.isEmpty
  | c :: rest => prefixAt needle (c :: rest) || containsSub needle rest

/-! ## Retry classifier (AnthropicClient._should_retry_error) -/

def retryKeywords : List String :=
  ["timeout", "connection", "network", "rate limit",
   "too many requests", "429", "overloaded", "529"]

def noRetryKeywords : List String :=
  ["invalid", "content policy", "malformed", "400",
   "format", "invalid_request_error"]

/-- Whether any keyword of `kws` occurs in the lower-cased message. -/
def containsAnyKw (kws : List String) (msg : String) : Bool :=
  kws.any (fun k => containsSub k.data (strToLower msg))

/-- Shallow embedding of `AnthropicClient._should_retry_error`: retry
keywords are checked first, then no-retry keywords, default retry. -/
def shouldRetryError (msg : String) : Bool :=
  if containsAnyKw retryKeywords msg then true
  else if containsAnyKw noRetryKeywords msg then false
  else true

example : shouldRetryError "Request timeout" = true := by decide
example : shouldRetryError "invalid_request_error: bad model" = false := by decide
example : shouldRetryError "mystery" = true := by decide
example : shouldRetryError "invalid timeout" = true := by decide

/-! ## Dispatcher (TaskProcessor._process_task)

One claimed pending task is processed against the outcome of the remote
`create_batch` call.  The outcome is either a fresh `batch_id`, an
`AIException` carrying a `retry` flag (set by the retry classifier at the
client boundary), or any other exception. -/

inductive SubmitOutcome where
  | success (batchId : String)
  | aiError (msg : String) (retry : Bool)
  | otherError (msg : String)
deriving DecidableEq

structure ProcTask where
  task_id : String
  document_id : String
  prompt : String
  attempts : Nat
deriving DecidableEq

/-- One outbox write performed by `create_outbox_message` as invoked from
the task processor: the payload carries either a result or an error. -/
structure OutboxWrite where
  task_id : String
  document_id : String
  status : String
  payloadError : Option String
deriving DecidableEq

/-- Observable effect of `TaskProcessor._process_task` on one task. -/
structure ProcessResult where
  finalStatus : String
  errorField : Option String
  batchPatch : Option String
  incremented : Bool
  submitted : Bool
  outbox : List OutboxWrite
deriving DecidableEq

/-- Error text used when a task exceeds the attempt budget
(task_processor.py line 235, the f-string rendered verbatim). -/
def maxAttemptsErrorMsg (maxAttempts : Nat) : String :=
  "Превышено максимальное количество попыток (" ++ toString maxAttempts ++ ")"

/-- Shallow embedding of `TaskProcessor._process_task`.  Store writes are
reported in the result record: `finalStatus` is the last status written,
`incremented`/`submitted` record whether `increment_attempt` and
`create_batch` ran, `outbox` lists the outbox messages enqueued. -/
def processTask (maxAttempts : Nat) (t : ProcTask) (outcome : SubmitOutcome) :
    ProcessResult :=
  if t.attempts ≥ maxAttempts then
    let err := maxAttemptsErrorMsg maxAttempts
    { finalStatus := "failed", errorField := some err, batchPatch := none,
      incremented := false, submitted := false,
      outbox := [⟨t.task_id, t.document_id, "failed", some err⟩] }
  else
    let newAttempts := t.attempts + 1
    match outcome with
    | .success batchId =>
        { finalStatus := "processing_by_api", errorField := none,
          batchPatch := some batchId, incremented := true, submitted := true,
          outbox := [] }
    | .aiError msg retry =>
        if !retry || newAttempts ≥ maxAttempts then
          { finalStatus := "failed", errorField := some msg, batchPatch := none,
            incremented := true, submitted := true,
            outbox := [⟨t.task_id, t.document_id, "failed", some msg⟩] }
        else
          { finalStatus := "pending", errorField := none, batchPatch := none,
            incremented := true, submitted := true, outbox := [] }
    | .otherError msg =>
        if newAttempts ≥ maxAttempts then
          { finalStatus := "failed", errorField := some msg, batchPatch := none,
            incremented := true, submitted := true,
            outbox := [⟨t.task_id, t.document_id, "failed", some msg⟩] }
        else
          { finalStatus := "pending", errorField := none, batchPatch := none,
            incremented := true, submitted := true, outbox := [] }

example :
    processTask 3 ⟨"t1", "d1", "p", 0⟩ (.aiError "rate limit (429)" true) =
      { finalStatus := "pending", errorField := none, batchPatch := none,
        incremented := true, submitted := true, outbox := [] } := by decide

example :
    (processTask 3 ⟨"t1", "d1", "p", 2⟩ (.aiError "rate limit (429)" true)).finalStatus
      = "failed" := by decide

example :
    (processTask 3 ⟨"t1", "d1", "p", 3⟩ (.success "b1")).outbox =
      [⟨"t1", "d1", "failed", some (maxAttemptsErrorMsg 3)⟩] := by decide

/-! ## TaskStore (app/storage/task_store.py)

The Redis keyspace is modelled functionally: `tasks` maps a task id to
its record (the `task:<id>` hash together with the `task:<id>:prompt`,
`:result`, `:error`, `:callback_url`, `:callback_secret` blobs), and
`stateIdx s tid` is membership of `tid` in the `tasks:<s>` sorted set
(scores are irrelevant to the claims and are dropped).  `docIdx` and
`batchIdx` model `tasks:document:<id>` and `tasks:batch:<id>`. -/

structure TaskRecord where
  document_id : String
  status : String
  prompt : String
  callback_url : String
  callback_secret : String
  attempts : Nat
  callback_attempts : Nat
  batch_id : Option String
  claude_message_id : Option String
  claude_request_id : Option String
  result : Option String
  error : Option String
deriving DecidableEq

structure TaskStoreState where
  tasks : String → Option TaskRecord
  stateIdx : String → String → Bool
  docIdx : String → String → Bool
  batchIdx : String → String → Bool

def emptyTaskStore : TaskStoreState :=
  { tasks := fun _ => none, stateIdx := fun _ _ => false,
    docIdx := fun _ _ => false, batchIdx := fun _ _ => false }

/-- Shallow embedding of `TaskStore.create_task`: writes the record with
status `pending`, adds the id to `tasks:pending` and to the document
(and, when a batch id is given, batch) index. -/
def createTask (st : TaskStoreState) (tid did prompt cbUrl cbSecret : String)
    (batchId : Option String) : TaskStoreState :=
  { tasks := fun id =>
      if id = tid then
        some ⟨did, "pending", prompt, cbUrl, cbSecret, 0, 0, batchId,
              none, none, none, none⟩
      else st.tasks id,
    stateIdx := fun s id =>
      if s = "pending" ∧ id = tid then true else st.stateIdx s id,
    docIdx := fun d id =>
      if d = did ∧ id = tid then true else st.docIdx d id,
    batchIdx := fun b id =>
      match batchId with
      | some bi => if b = bi ∧ id = tid then true else st.batchIdx b id
      | none => st.batchIdx b id }

/-- Patch fields merged by `TaskStore.update_task_status` (the `data`
dictionary; only the keys the method recognises). -/
structure TaskPatch where
  claude_message_id : Option String
  claude_request_id : Option String
  batch_id : Option String
  error : Option String
  result : Option String
deriving DecidableEq

def emptyPatch : TaskPatch := ⟨none, none, none, none, none⟩

/-- Shallow embedding of `TaskStore.update_task_status`: returns `false`
when the task does not exist; otherwise merges the patch, sets the new
status, and — only when the status actually changes — removes the id from
the previous `tasks:<status>` set and adds it to the new one. -/
def updateTaskStatus (st : TaskStoreState) (tid newStatus : String)
    (data : TaskPatch) : TaskStoreState × Bool :=
  match st.tasks tid with
  | none => (st, false)
  | some r =>
    let prev := r.status
    let r' : TaskRecord :=
      { r with
        status := newStatus,
        claude_message_id := data.claude_message_id.elim r.claude_message_id some,
        claude_request_id := data.claude_request_id.elim r.claude_request_id some,
        batch_id := data.batch_id.elim r.batch_id some,
        error := data.error.elim r.error some,
        result := data.result.elim r.result some }
    let batchIdx' : String → String → Bool := fun b id =>
      match data.batch_id with
      | some bi => if b = bi ∧ id = tid then true else st.batchIdx b id
      | none => st.batchIdx b id
    let stateIdx' : String → String → Bool :=
      if prev ≠ newStatus then
        fun s id =>
          if id = tid then
            if s = newStatus then true
            else if s = prev then false
            else st.stateIdx s id
          else st.stateIdx s id
      else st.stateIdx
    ({ tasks := fun id => if id = tid then some r' else st.tasks id,
       stateIdx := stateIdx',
       docIdx := st.docIdx,
       batchIdx := batchIdx' }, true)

/-- The state-index invariant of the spec: every stored task is a member
of exactly one `tasks:<state>` set, namely the one named by its own
`status` field. -/
def stateInvariant (st : TaskStoreState) : Prop :=
  ∀ tid r, st.tasks tid = some r →
    st.stateIdx r.status tid = true ∧
    ∀ s, s ≠ r.status → st.stateIdx s tid = false

/-- Companion invariant: ids without a stored record sit in no
`tasks:<state>` set.  It holds of a fresh store and is needed for the
state-index invariant to survive `create_task` on a fresh id. -/
def noGhostIndex (st : TaskStoreState) : Prop :=
  ∀ tid, st.tasks tid = none → ∀ s, st.stateIdx s tid = false

/-! ## OutboxStore (app/storage/outbox_store.py)

The `payload` dictionary handed to `create_outbox_message` by the task
processor carries `result`, `processing_time`, `input_tokens`,
`output_tokens` on the completed path and `error` on the failed path; it
is modelled as a record of optional fields rather than an opaque JSON
blob.  Times (`time.time()` floats) are modelled as naturals in seconds,
which is exact for the backoff arithmetic the claims are about. -/

structure CallbackPayload where
  result : Option String
  processing_time : Option Nat
  input_tokens : Option Nat
  output_tokens : Option Nat
  error : Option String
deriving DecidableEq

/-- One record in the `outbox:message:<id>` hash.  Note the field list is
exactly what `create_outbox_message` writes: there is no callback URL and
no callback secret on the message. -/
structure OutboxMessage where
  message_id : String
  task_id : String
  document_id : String
  status : String
  payload : CallbackPayload
  created_at : Nat
  sent_at : Option Nat
  retry_count : Nat
  next_retry_at : Nat
  last_error : Option String
deriving DecidableEq

structure OutboxState where
  messages : String → Option OutboxMessage
  pending : String → Option Nat
  sentSet : String → Option Nat
  taskIdx : String → String → Bool
  docIdx : String → String → Bool

def emptyOutbox : OutboxState :=
  { messages := fun _ => none, pending := fun _ => none,
    sentSet := fun _ => none, taskIdx := fun _ _ => false,
    docIdx := fun _ _ => false }

/-- Shallow embedding of `OutboxStore.create_outbox_message`: writes the
record, scores the id into `outbox:pending` at `now`, indexes by task and
document, and returns `true`.  There is no existence check: the `hset`
and `zadd` run unconditionally, so a repeated `message_id` is
overwritten. -/
def createOutboxMessage (st : OutboxState) (now : Nat)
    (mid tid did status : String) (payload : CallbackPayload) :
    OutboxState × Bool :=
  ({ messages := fun id =>
       if id = mid then
         some ⟨mid, tid, did, status, payload, now, none, 0, now, none⟩
       else st.messages id,
     pending := fun id => if id = mid then some now else st.pending id,
     sentSet := st.sentSet,
     taskIdx := fun t m =>
       if t = tid ∧ m = mid then true else st.taskIdx t m,
     docIdx := fun d m =>
       if d = did ∧ m = mid then true else st.docIdx d m }, true)

/-- Backoff delay of `OutboxStore.mark_as_failed`:
`min(retry_delay_seconds * 2 ** retry_count, 24 * 60 * 60)`. -/
def retryBackoffDelay (retryDelaySeconds retryCount : Nat) : Nat :=
  min (retryDelaySeconds * 2 ^ retryCount) (24 * 60 * 60)

/-- Shallow embedding of `OutboxStore.mark_as_failed`: returns `false` if
the message does not exist, otherwise bumps `retry_count`, schedules
`next_retry_at = now + min(delay * 2^retry_count, 24h)`, records the
error and re-scores the `outbox:pending` entry. -/
def markAsFailed (st : OutboxState) (now : Nat) (mid error : String)
    (retryDelaySeconds : Nat) : OutboxState × Bool :=
  match st.messages mid with
  | none => (st, false)
  | some r =>
    let nextRetryAt := now + retryBackoffDelay retryDelaySeconds r.retry_count
    let r' : OutboxMessage :=
      { r with retry_count := r.retry_count + 1,
               next_retry_at := nextRetryAt,
               last_error := some error }
    ({ messages := fun id => if id = mid then some r' else st.messages id,
       pending := fun id => if id = mid then some nextRetryAt else st.pending id,
       sentSet := st.sentSet, taskIdx := st.taskIdx, docIdx := st.docIdx },
     true)

/-- Shallow embedding of `OutboxStore.mark_as_sent`: sets `sent_at`,
removes the id from `outbox:pending`, adds it to `outbox:sent`. -/
def markAsSent (st : OutboxState) (now : Nat) (mid : String) :
    OutboxState × Bool :=
  match st.messages mid with
  | none => (st, false)
  | some r =>
    let r' : OutboxMessage := { r with sent_at := some now }
    ({ messages := fun id => if id = mid then some r' else st.messages id,
       pending := fun id => if id = mid then none else st.pending id,
       sentSet := fun id => if id = mid then some now else st.sentSet id,
       taskIdx := st.taskIdx, docIdx := st.docIdx }, true)

/-! ## Relay (app/services/outbox_relay_service.py)

`_send_callback` assembles the JSON body from the message fields and the
payload, signs the serialized bytes with HMAC-SHA256, and POSTs.  The
model records the destination URL, the HMAC key, and the assembled body;
the hash itself is bit-level and outside the claims, which are about
which key and which URL are used. -/

structure RelaySettings where
  CALLBACK_URL : String
  CALLBACK_SECRET : String
deriving DecidableEq

/-- The assembled callback body (`callback_data` in `_send_callback`):
`task_id`, `document_id`, `status` always; result and token fields only
for `completed`; `error` only for `failed`. -/
structure CallbackData where
  task_id : String
  document_id : String
  status : String
  result : Option String
  processing_time : Option Nat
  input_tokens : Option Nat
  output_tokens : Option Nat
  error : Option String
deriving DecidableEq

def buildCallbackData (tid did status : String) (p : CallbackPayload) :
    CallbackData :=
  if status = "completed" then
    ⟨tid, did, status, p.result, p.processing_time, p.input_tokens,
     p.output_tokens, none⟩
  else if status = "failed" then
    ⟨tid, did, status, none, none, none, none,
     some (p.error.getD "Неизвестная ошибка")⟩
  else
    ⟨tid, did, status, none, none, none, none, none⟩

/-- The outgoing POST as built by `_send_callback`: destination URL, the
key handed to `hmac.new` (whose hex digest becomes the `X-Signature`
header), and the body that is serialized and signed. -/
structure CallbackRequest where
  url : String
  signatureKey : String
  body : CallbackData
deriving DecidableEq

/-- Shallow embedding of `_send_callback` as called from
`_process_message`: `callback_url` is `message.get("callback_url")`,
which on the stored message shape is always absent, so the code falls
back to `settings.CALLBACK_URL`; the signing secret is always
`settings.CALLBACK_SECRET`. -/
def sendCallbackRequest (settings : RelaySettings) (callbackUrl : Option String)
    (tid did status : String) (p : CallbackPayload) : CallbackRequest :=
  { url := callbackUrl.getD settings.CALLBACK_URL,
    signatureKey := settings.CALLBACK_SECRET,
    body := buildCallbackData tid did status p }

/-- Shallow embedding of `OutboxRelayService._process_message`'s request
construction: the `OutboxMessage` record has no `callback_url` key, so
`message.get("callback_url")` yields nothing. -/
def relayRequest (settings : RelaySettings) (msg : OutboxMessage) :
    CallbackRequest :=
  sendCallbackRequest settings none msg.task_id msg.document_id msg.status
    msg.payload

/-! ## BatchWatcher result demultiplexing
(TaskProcessor._check_batches_loop, ended-batch branch)

`AnthropicClient.get_batch_results` returns a map `custom_id → entry`
(`custom_id` is the task's `document_id`); the watcher walks the batch's
task list in `tasks:batch:<id>` order and, for each task, looks its
`document_id` up in that map. -/

/-- One entry of the `get_batch_results` map: `status` is `"completed"`
for a succeeded request, `"failed"` for an errored one, or the raw result
kind otherwise; `result` / `error` are set accordingly. -/
structure ResultEntry where
  status : String
  result : Option String
  error : Option String
deriving DecidableEq

/-- Effect of the watcher on one task of an ended batch: the status
written to the store, the error recorded (if any), and the status of the
outbox message enqueued for it. -/
structure BatchTaskOutcome where
  task_id : String
  newStatus : String
  result : Option String
  errorField : Option String
  outboxStatus : String
deriving DecidableEq

/-- Error text for a document absent from the results map
(task_processor.py line 183, the f-string rendered verbatim). -/
def resultNotFoundMsg (did batchId : String) : String :=
  "Результат для документа " ++ did ++ " не найден в пакете " ++ batchId

/-- How the watcher settles one `(task_id, document_id)` pair of an ended
batch against the results map. -/
def bindResult (batchId : String) (results : String → Option ResultEntry)
    (t : String × String) : BatchTaskOutcome :=
  match results t.2 with
  | some rd =>
      if rd.status = "completed" then
        ⟨t.1, "completed", rd.result, none, "completed"⟩
      else
        let err := rd.error.getD "Неизвестная ошибка"
        ⟨t.1, "failed", none, some err, "failed"⟩
  | none =>
      let err := resultNotFoundMsg t.2 batchId
      ⟨t.1, "failed", none, some err, "failed"⟩

/-- Shallow embedding of the ended-batch loop body: every task of the
batch, in `tasks:batch:<id>` order, is settled independently against the
results map. -/
def processBatchResults (batchId : String)
    (batchTasks : List (String × String))
    (results : String → Option ResultEntry) : List BatchTaskOutcome :=
  batchTasks.map (bindResult batchId results)

/-! ## Product-batch endpoint (app/api/v1/endpoints/products.py)

The whole handler body sits in one `try` whose `except Exception` clause
re-raises any exception — including the `HTTPException`s raised by the
size checks — as a 500.  `str` of a FastAPI `HTTPException` renders as
`"<code>: <detail>"`. -/

inductive ProductBatchHandlerResult where
  | accepted (batchId : String) (status : String) (productCount processedCount : Nat)
  | httpError (statusCode : Nat) (detail : String)
deriving DecidableEq

def emptyBatchDetail : String := "Список товаров не может быть пустым"

def tooManyProductsDetail (maxBatchSize : Nat) : String :=
  "Слишком много товаров в батче. Максимальный размер: " ++ toString maxBatchSize

/-- The `try` block of `process_product_batch`: validation raising
`HTTPException(400, …)`, then the processor call (assumed to succeed,
returning `batchId`) and the 202 response. -/
def processProductBatchTry (products : List String) (batchId : String) :
    Except (Nat × String) ProductBatchHandlerResult :=
  if products.isEmpty then
    .error (400, emptyBatchDetail)
  else if products.length > 100 then
    .error (400, tooManyProductsDetail 100)
  else
    .ok (.accepted batchId "pending" products.length 0)

/-- Shallow embedding of the `process_product_batch` handler after API-key
verification: the `except Exception` clause catches every exception the
`try` block raised — `HTTPException` included, since the handler has no
`except HTTPException: raise` guard — and replaces it with a 500 whose
detail wraps `str(e)`. -/
def processProductBatchHandler (products : List String) (batchId : String) :
    ProductBatchHandlerResult :=
  match processProductBatchTry products batchId with
  | .ok r => r
  | .error (code, detail) =>
      .httpError 500
        ("Ошибка при создании батча товаров: " ++ toString code ++ ": " ++ detail)

/-! ## Claims -/

/-- Claim C1: for a pending task claimed by the dispatcher whose remote submit
raises an `AIException`: if the error is classified retryable and the
post-increment attempt count is still below the maximum, the task goes
back to `pending` and no outbox message is written; otherwise it goes to
`failed` with the error recorded and exactly one failed outbox message is
enqueued. -/
theorem dispatcher_submit_error_retry_or_fail (maxAttempts : Nat)
    (t : ProcTask) (msg : String) (retry : Bool)
    (hclaim : t.attempts < maxAttempts) :
    (retry = true → t.attempts + 1 < maxAttempts →
      processTask maxAttempts t (.aiError msg retry) =
        { finalStatus := "pending", errorField := none, batchPatch := none,
          incremented := true, submitted := true, outbox := [] }) ∧
    ((retry = false ∨ maxAttempts ≤ t.attempts + 1) →
      processTask maxAttempts t (.aiError msg retry) =
        { finalStatus := "failed", errorField := some msg, batchPatch := none,
          incremented := true, submitted := true,
          outbox := [⟨t.task_id, t.document_id, "failed", some msg⟩] }) := by
  have hnotge : ¬ t.attempts ≥ maxAttempts := Nat.not_le.mpr hclaim
  constructor
  · intro hr hlt
    subst hr
    simp [processTask, hnotge, Nat.not_le.mpr hlt]
  · rintro (hr | hge)
    · subst hr
      simp [processTask, hnotge]
    · simp [processTask, hnotge, hge]

/-- Witness for C1 at a concrete task: two retryable failures on a fresh
task re-enqueue it, a non-retryable failure fails it. -/
theorem dispatcher_submit_error_retry_or_fail_witness :
    processTask 3 ⟨"t1", "d1", "classify X", 0⟩
        (.aiError "rate limit exceeded (429)" true) =
      { finalStatus := "pending", errorField := none, batchPatch := none,
        incremented := true, submitted := true, outbox := [] } ∧
    processTask 3 ⟨"t1", "d1", "classify X", 1⟩
        (.aiError "invalid_request_error: bad model" false) =
      { finalStatus := "failed",
        errorField := some "invalid_request_error: bad model",
        batchPatch := none, incremented := true, submitted := true,
        outbox := [⟨"t1", "d1", "failed",
                   some "invalid_request_error: bad model"⟩] } :=
  ⟨(dispatcher_submit_error_retry_or_fail 3 ⟨"t1", "d1", "classify X", 0⟩
      "rate limit exceeded (429)" true (by decide)).1 rfl (by decide),
   (dispatcher_submit_error_retry_or_fail 3 ⟨"t1", "d1", "classify X", 1⟩
      "invalid_request_error: bad model" false (by decide)).2 (Or.inl rfl)⟩

/-- Counterexample to C2: a task claimed with `attempts = 3 = MAX_ATTEMPTS`
is failed, but the recorded error string is the Russian message rendered
by the source, not `"maximum attempts exceeded"`. -/
theorem exhausted_attempts_error_string_counterexample :
    (processTask 3 ⟨"t1", "d1", "classify X", 3⟩ (.success "b1")).errorField =
      some (maxAttemptsErrorMsg 3) ∧
    (processTask 3 ⟨"t1", "d1", "classify X", 3⟩ (.success "b1")).errorField ≠
      some "maximum attempts exceeded" := by decide

/-- Claim C2 amended: for every task claimed with `attempts ≥ MAX_ATTEMPTS` the
dispatcher fails the task with the source's max-attempts error string
(`"Превышено максимальное количество попыток (N)"`), enqueues exactly one
failed outbox message with that error, and performs neither an attempt
increment nor a remote submit. -/
theorem exhausted_attempts_fail_fast (maxAttempts : Nat) (t : ProcTask)
    (outcome : SubmitOutcome) (h : maxAttempts ≤ t.attempts) :
    processTask maxAttempts t outcome =
      { finalStatus := "failed",
        errorField := some (maxAttemptsErrorMsg maxAttempts),
        batchPatch := none, incremented := false, submitted := false,
        outbox := [⟨t.task_id, t.document_id, "failed",
                   some (maxAttemptsErrorMsg maxAttempts)⟩] } := by
  unfold processTask
  rw [if_pos h]

/-- Witness for the amended C2 at a concrete exhausted task. -/
theorem exhausted_attempts_fail_fast_witness :
    processTask 3 ⟨"t1", "d1", "classify X", 3⟩ (.success "b1") =
      { finalStatus := "failed", errorField := some (maxAttemptsErrorMsg 3),
        batchPatch := none, incremented := false, submitted := false,
        outbox := [⟨"t1", "d1", "failed", some (maxAttemptsErrorMsg 3)⟩] } :=
  exhausted_attempts_fail_fast 3 ⟨"t1", "d1", "classify X", 3⟩ (.success "b1")
    (by decide)

/-- Counterexample to C6: the claim asserts the classifier returns false for
every message containing a do-not-retry substring, but a message that
also contains a retry substring is classified retryable: `"malformed
timeout"` contains `"malformed"` yet the classifier returns true. -/
theorem retry_classifier_counterexample :
    containsAnyKw noRetryKeywords "malformed timeout" = true ∧
    shouldRetryError "malformed timeout" = true := by decide

/-- Claim C6 amended: the classifier returns true for every message containing
a retry substring; false for every message containing a do-not-retry
substring and no retry substring; and true for every message containing
none of the listed substrings (all case-insensitively). -/
theorem retry_classifier_keyword_cases :
    (∀ msg, containsAnyKw retryKeywords msg = true →
       shouldRetryError msg = true) ∧
    (∀ msg, containsAnyKw retryKeywords msg = false →
       containsAnyKw noRetryKeywords msg = true →
       shouldRetryError msg = false) ∧
    (∀ msg, containsAnyKw retryKeywords msg = false →
       containsAnyKw noRetryKeywords msg = false →
       shouldRetryError msg = true) := by
  refine ⟨?_, ?_, ?_⟩
  · intro msg h1
    simp [shouldRetryError, h1]
  · intro msg h1 h2
    simp [shouldRetryError, h1, h2]
  · intro msg h1 h2
    simp [shouldRetryError, h1, h2]

/-- Witness for the amended C6 on one message of each kind. -/
theorem retry_classifier_keyword_cases_witness :
    shouldRetryError "Request timeout" = true ∧
    shouldRetryError "invalid_request_error: bad model" = false ∧
    shouldRetryError "mystery failure" = true :=
  ⟨retry_classifier_keyword_cases.1 "Request timeout" (by decide),
   retry_classifier_keyword_cases.2.1 "invalid_request_error: bad model"
     (by decide) (by decide),
   retry_classifier_keyword_cases.2.2 "mystery failure" (by decide) (by decide)⟩

/-- Claim C10: the retryable-keyword test takes precedence: any message
containing a retry substring is classified retryable, even if it also
contains do-not-retry substrings. -/
theorem retry_keywords_take_precedence (msg : String)
    (h : containsAnyKw retryKeywords msg = true) :
    shouldRetryError msg = true := by
  simp [shouldRetryError, h]

/-- Witness for C10: `"invalid timeout"` matches both keyword lists and
is classified retryable. -/
theorem retry_keywords_take_precedence_witness :
    containsAnyKw retryKeywords "invalid timeout" = true ∧
    containsAnyKw noRetryKeywords "invalid timeout" = true ∧
    shouldRetryError "invalid timeout" = true :=
  ⟨by decide, by decide, retry_keywords_take_precedence "invalid timeout" (by decide)⟩

/-- Claim C3: the state-index invariant — every stored task is a member of
exactly one `tasks:<state>` set, the one matching its `status` field — is
preserved by `create_task` (on a fresh task id, as produced by the
callers' uuid4) and by `update_task_status` for every old/new state pair,
together with the companion fact that absent ids are unindexed. -/
theorem task_state_index_preserved (st : TaskStoreState)
    (hinv : stateInvariant st) (hghost : noGhostIndex st) :
    (∀ tid did prompt cbUrl cbSecret batchId, st.tasks tid = none →
       stateInvariant (createTask st tid did prompt cbUrl cbSecret batchId) ∧
       noGhostIndex (createTask st tid did prompt cbUrl cbSecret batchId)) ∧
    (∀ tid newStatus data,
       stateInvariant (updateTaskStatus st tid newStatus data).1 ∧
       noGhostIndex (updateTaskStatus st tid newStatus data).1) := by
  constructor
  · intro tid did prompt cbUrl cbSecret batchId hfresh
    constructor
    · intro tid' r hr
      simp only [createTask] at hr
      by_cases htid : tid' = tid
      · subst htid
        rw [if_pos rfl] at hr
        injection hr with hr
        subst hr
        constructor
        · simp [createTask]
        · intro s hs
          simp only [createTask]
          rw [if_neg (fun h => hs h.1)]
          exact hghost tid' hfresh s
      · rw [if_neg htid] at hr
        have h := hinv tid' r hr
        constructor
        · simp only [createTask]
          rw [if_neg (fun hh => htid hh.2)]
          exact h.1
        · intro s hs
          simp only [createTask]
          rw [if_neg (fun hh => htid hh.2)]
          exact h.2 s hs
    · intro tid' hnone s
      simp only [createTask] at hnone ⊢
      by_cases htid : tid' = tid
      · subst htid
        rw [if_pos rfl] at hnone
        exact absurd hnone (by simp)
      · rw [if_neg htid] at hnone
        rw [if_neg (fun hh => htid hh.2)]
        exact hghost tid' hnone s
  · intro tid newStatus data
    cases hcase : st.tasks tid with
    | none =>
        simp only [updateTaskStatus, hcase]
        exact ⟨hinv, hghost⟩
    | some r =>
        simp only [updateTaskStatus, hcase]
        by_cases hne : r.status ≠ newStatus
        · rw [if_pos hne]
          constructor
          · intro tid' rr hrr
            dsimp only at hrr ⊢
            by_cases htid : tid' = tid
            · subst htid
              rw [if_pos rfl] at hrr
              injection hrr with hrr
              subst hrr
              constructor
              · dsimp only
                rw [if_pos rfl, if_pos rfl]
              · intro s hs
                dsimp only at hs ⊢
                rw [if_pos rfl, if_neg hs]
                by_cases hsp : s = r.status
                · rw [if_pos hsp]
                · rw [if_neg hsp]
                  exact (hinv tid' r hcase).2 s hsp
            · rw [if_neg htid] at hrr
              have h := hinv tid' rr hrr
              constructor
              · rw [if_neg htid]
                exact h.1
              · intro s hs
                rw [if_neg htid]
                exact h.2 s hs
          · intro tid' hnone s
            dsimp only at hnone ⊢
            by_cases htid : tid' = tid
            · subst htid
              rw [if_pos rfl] at hnone
              exact absurd hnone (by simp)
            · rw [if_neg htid] at hnone
              rw [if_neg htid]
              exact hghost tid' hnone s
        · rw [if_neg hne]
          push_neg at hne
          constructor
          · intro tid' rr hrr
            dsimp only at hrr ⊢
            by_cases htid : tid' = tid
            · subst htid
              rw [if_pos rfl] at hrr
              injection hrr with hrr
              subst hrr
              have h := hinv tid' r hcase
              constructor
              · show st.stateIdx newStatus tid' = true
                rw [← hne]
                exact h.1
              · intro s hs
                dsimp only at hs
                exact h.2 s (by rw [hne]; exact hs)
            · rw [if_neg htid] at hrr
              exact hinv tid' rr hrr
          · intro tid' hnone s
            dsimp only at hnone ⊢
            by_cases htid : tid' = tid
            · subst htid
              rw [if_pos rfl] at hnone
              exact absurd hnone (by simp)
            · rw [if_neg htid] at hnone
              exact hghost tid' hnone s

/-- Witness for C3: starting from the empty store, a freshly created task
sits in `tasks:pending` and in no other state set. -/
theorem task_state_index_preserved_witness :
    (createTask emptyTaskStore "t1" "d1" "classify X" "http://cb" "secret"
        none).stateIdx "pending" "t1" = true ∧
    (createTask emptyTaskStore "t1" "d1" "classify X" "http://cb" "secret"
        none).stateIdx "failed" "t1" = false := by
  have hinv : stateInvariant emptyTaskStore := by
    intro tid r h
    simp [emptyTaskStore] at h
  have hghost : noGhostIndex emptyTaskStore := by
    intro tid h s
    rfl
  have h := (task_state_index_preserved emptyTaskStore hinv hghost).1
    "t1" "d1" "classify X" "http://cb" "secret" none rfl
  have hrec : (createTask emptyTaskStore "t1" "d1" "classify X" "http://cb"
      "secret" none).tasks "t1" =
      some ⟨"d1", "pending", "classify X", "http://cb", "secret",
            0, 0, none, none, none, none, none⟩ := by decide
  have h2 := h.1 "t1" _ hrec
  exact ⟨h2.1, h2.2 "failed" (by decide)⟩

/-- Counterexample to C4: re-enqueueing an existing `message_id` is not a
no-op and does not return false — the record is overwritten (fresh
`created_at`, `retry_count` reset), the pending score is reset to `now`,
and the call returns true. -/
theorem enqueue_duplicate_id_counterexample :
    ((createOutboxMessage
        (createOutboxMessage emptyOutbox 100 "m1" "t1" "d1" "completed"
          ⟨some "r1", none, none, none, none⟩).1
        200 "m1" "t1" "d1" "completed"
        ⟨some "r2", none, none, none, none⟩).2 = true) ∧
    ((createOutboxMessage
        (createOutboxMessage emptyOutbox 100 "m1" "t1" "d1" "completed"
          ⟨some "r1", none, none, none, none⟩).1
        200 "m1" "t1" "d1" "completed"
        ⟨some "r2", none, none, none, none⟩).1.messages "m1" ≠
      (createOutboxMessage emptyOutbox 100 "m1" "t1" "d1" "completed"
          ⟨some "r1", none, none, none, none⟩).1.messages "m1") ∧
    ((createOutboxMessage
        (createOutboxMessage emptyOutbox 100 "m1" "t1" "d1" "completed"
          ⟨some "r1", none, none, none, none⟩).1
        200 "m1" "t1" "d1" "completed"
        ⟨some "r2", none, none, none, none⟩).1.pending "m1" = some 200) := by
  decide

/-- Effect of `create_outbox_message` on its own `message_id`: the record
is written, the pending score is `now`, the call returns true. -/
theorem createOutboxMessage_spec (st : OutboxState) (now : Nat)
    (mid tid did status : String) (p : CallbackPayload) :
    (createOutboxMessage st now mid tid did status p).2 = true ∧
    (createOutboxMessage st now mid tid did status p).1.messages mid =
      some ⟨mid, tid, did, status, p, now, none, 0, now, none⟩ ∧
    (createOutboxMessage st now mid tid did status p).1.pending mid =
      some now := by
  refine ⟨rfl, ?_, ?_⟩ <;>
  · dsimp only [createOutboxMessage]
    rw [if_pos rfl]

/-- Claim C4 amended: `create_outbox_message` writes unconditionally — for any
prior store state, including one already holding the `message_id`, it
stores a fresh record, scores the id into `outbox:pending` at `now`, and
returns true. -/
theorem enqueue_always_writes (st : OutboxState) (now : Nat)
    (mid tid did status : String) (p : CallbackPayload) :
    (createOutboxMessage st now mid tid did status p).2 = true ∧
    (createOutboxMessage st now mid tid did status p).1.messages mid =
      some ⟨mid, tid, did, status, p, now, none, 0, now, none⟩ ∧
    (createOutboxMessage st now mid tid did status p).1.pending mid =
      some now :=
  createOutboxMessage_spec st now mid tid did status p

/-- Effect of `mark_as_failed` on an existing message, for any base
delay: retry count bumped, next retry scheduled with the capped
exponential backoff, pending entry re-scored. -/
theorem markAsFailed_spec (st : OutboxState) (now : Nat) (mid err : String)
    (d : Nat) (msgRec : OutboxMessage) (h : st.messages mid = some msgRec) :
    (markAsFailed st now mid err d).2 = true ∧
    (markAsFailed st now mid err d).1.messages mid =
      some { msgRec with
             retry_count := msgRec.retry_count + 1,
             next_retry_at := now + retryBackoffDelay d msgRec.retry_count,
             last_error := some err } ∧
    (markAsFailed st now mid err d).1.pending mid =
      some (now + retryBackoffDelay d msgRec.retry_count) := by
  simp [markAsFailed, h]

/-- Claim C5: for an existing message with retry count `r`, `mark_as_failed`
(as called by the relay, base delay 60s) sets the count to `r + 1`,
schedules `next_retry_at = now + min(60 · 2^r, 24h)`, records the error,
and re-scores the pending entry; a subsequent `mark_as_failed` at any
later time schedules a `next_retry_at` that is no smaller. -/
theorem mark_failed_backoff (st : OutboxState) (now : Nat) (mid err : String)
    (msgRec : OutboxMessage) (h : st.messages mid = some msgRec) :
    (markAsFailed st now mid err 60).2 = true ∧
    (markAsFailed st now mid err 60).1.messages mid =
      some { msgRec with
             retry_count := msgRec.retry_count + 1,
             next_retry_at := now + retryBackoffDelay 60 msgRec.retry_count,
             last_error := some err } ∧
    (markAsFailed st now mid err 60).1.pending mid =
      some (now + retryBackoffDelay 60 msgRec.retry_count) ∧
    (∀ now₂ err₂, now ≤ now₂ →
       ∃ rec₂,
         (markAsFailed (markAsFailed st now mid err 60).1 now₂ mid err₂
             60).1.messages mid = some rec₂ ∧
         rec₂.next_retry_at =
           now₂ + retryBackoffDelay 60 (msgRec.retry_count + 1) ∧
         now + retryBackoffDelay 60 msgRec.retry_count ≤
           rec₂.next_retry_at) := by
  obtain ⟨h1, h2, h3⟩ := markAsFailed_spec st now mid err 60 msgRec h
  refine ⟨h1, h2, h3, ?_⟩
  intro now₂ err₂ hle
  obtain ⟨g1, g2, g3⟩ :=
    markAsFailed_spec (markAsFailed st now mid err 60).1 now₂ mid err₂ 60 _ h2
  refine ⟨_, g2, rfl, ?_⟩
  have hd : retryBackoffDelay 60 msgRec.retry_count ≤
      retryBackoffDelay 60 (msgRec.retry_count + 1) := by
    unfold retryBackoffDelay
    exact min_le_min
      (Nat.mul_le_mul_left 60 (Nat.pow_le_pow_right (by norm_num) (Nat.le_succ _)))
      (le_refl _)
  exact Nat.add_le_add hle hd

/-- Witness for C5: the first failure of a message enqueued at 100 and
failed at 150 is rescheduled to 150 + 60 = 210. -/
theorem mark_failed_backoff_witness :
    (markAsFailed
        (createOutboxMessage emptyOutbox 100 "m1" "t1" "d1" "failed"
          ⟨none, none, none, none, some "boom"⟩).1
        150 "m1" "HTTP ошибка 503" 60).1.pending "m1" = some 210 := by
  have h := (mark_failed_backoff
    (createOutboxMessage emptyOutbox 100 "m1" "t1" "d1" "failed"
      ⟨none, none, none, none, some "boom"⟩).1
    150 "m1" "HTTP ошибка 503"
    ⟨"m1", "t1", "d1", "failed", ⟨none, none, none, none, some "boom"⟩,
     100, none, 0, 100, none⟩ (by decide)).2.2.1
  simpa [retryBackoffDelay] using h

/-- Counterexample to C7: in an ended batch with two tasks sharing
`document_id` `"d1"` and a single succeeded result entry, the watcher
completes both tasks — the second is not failed with `"duplicate document
id in batch"` (no such handling exists in the source). -/
theorem duplicate_document_binding_counterexample :
    processBatchResults "b1" [("t1", "d1"), ("t2", "d1")]
        (fun d => if d = "d1" then some ⟨"completed", some "X", none⟩
                  else none) =
      [⟨"t1", "completed", some "X", none, "completed"⟩,
       ⟨"t2", "completed", some "X", none, "completed"⟩] ∧
    processBatchResults "b1" [("t1", "d1"), ("t2", "d1")]
        (fun d => if d = "d1" then some ⟨"completed", some "X", none⟩
                  else none) ≠
      [⟨"t1", "completed", some "X", none, "completed"⟩,
       ⟨"t2", "failed", none, some "duplicate document id in batch",
        "failed"⟩] := by
  decide

/-- Claim C7 amended: every task of an ended batch whose `document_id` has a
succeeded entry in the results map — the first bearer of that id and
every later duplicate alike — binds to that single entry and is
completed with its result; no task is failed with a duplicate-id
error. -/
theorem duplicate_document_binding (batchId : String)
    (batchTasks : List (String × String))
    (results : String → Option ResultEntry) (tid did : String)
    (rd : ResultEntry) (hmem : (tid, did) ∈ batchTasks)
    (hres : results did = some rd) (hok : rd.status = "completed") :
    bindResult batchId results (tid, did) =
      ⟨tid, "completed", rd.result, none, "completed"⟩ ∧
    (⟨tid, "completed", rd.result, none, "completed"⟩ : BatchTaskOutcome) ∈
      processBatchResults batchId batchTasks results := by
  have hb : bindResult batchId results (tid, did) =
      ⟨tid, "completed", rd.result, none, "completed"⟩ := by
    simp [bindResult, hres, hok]
  exact ⟨hb, hb ▸ List.mem_map_of_mem (bindResult batchId results) hmem⟩

/-- Witness for the amended C7: the second of two tasks sharing `"d1"`
binds to the one succeeded entry and is completed. -/
theorem duplicate_document_binding_witness :
    (⟨"t2", "completed", some "X", none, "completed"⟩ : BatchTaskOutcome) ∈
      processBatchResults "b1" [("t1", "d1"), ("t2", "d1")]
        (fun d => if d = "d1" then some ⟨"completed", some "X", none⟩
                  else none) :=
  (duplicate_document_binding "b1" [("t1", "d1"), ("t2", "d1")]
    (fun d => if d = "d1" then some ⟨"completed", some "X", none⟩ else none)
    "t2" "d1" ⟨"completed", some "X", none⟩
    (by decide) (by decide) rfl).2

/-- Counterexample to C8: a task created with its own callback URL and
secret; the outbox message written for it carries neither, and the relay
request built from that message goes to the configured global URL and is
signed with the configured global secret — not the task's. -/
theorem relay_callback_provenance_counterexample :
    ((createTask emptyTaskStore "t1" "d1" "classify X"
        "http://task.example/cb" "task-secret" none).tasks "t1" =
      some ⟨"d1", "pending", "classify X", "http://task.example/cb",
            "task-secret", 0, 0, none, none, none, none, none⟩) ∧
    ((createOutboxMessage emptyOutbox 100 "m1" "t1" "d1" "failed"
        ⟨none, none, none, none, some "boom"⟩).1.messages "m1" =
      some ⟨"m1", "t1", "d1", "failed",
            ⟨none, none, none, none, some "boom"⟩, 100, none, 0, 100, none⟩) ∧
    (relayRequest ⟨"http://global.example/cb", "global-secret"⟩
        ⟨"m1", "t1", "d1", "failed",
         ⟨none, none, none, none, some "boom"⟩, 100, none, 0, 100, none⟩ =
      ⟨"http://global.example/cb", "global-secret",
       ⟨"t1", "d1", "failed", none, none, none, none, some "boom"⟩⟩) ∧
    ("global-secret" ≠ "task-secret") ∧
    ("http://global.example/cb" ≠ "http://task.example/cb") := by
  decide

/-- Claim C8 amended: for every outbox message — in particular any message just
written by `create_outbox_message` — the relay POSTs to the globally
configured `CALLBACK_URL` (the message stores no callback URL, so the
fallback always applies) and the HMAC-SHA256 `X-Signature` is keyed with
the globally configured `CALLBACK_SECRET` over the assembled body. -/
theorem relay_callback_provenance (settings : RelaySettings)
    (st : OutboxState) (now : Nat) (mid tid did status : String)
    (p : CallbackPayload) (msg : OutboxMessage)
    (h : (createOutboxMessage st now mid tid did status p).1.messages mid =
      some msg) :
    (relayRequest settings msg).url = settings.CALLBACK_URL ∧
    (relayRequest settings msg).signatureKey = settings.CALLBACK_SECRET ∧
    (relayRequest settings msg).body = buildCallbackData tid did status p := by
  have hmsg : msg = ⟨mid, tid, did, status, p, now, none, 0, now, none⟩ := by
    have := (createOutboxMessage_spec st now mid tid did status p).2.1
    rw [this] at h
    exact (Option.some.injEq _ _).mp h.symm
  subst hmsg
  exact ⟨rfl, rfl, rfl⟩

/-- Witness for the amended C8 at a concrete message and settings. -/
theorem relay_callback_provenance_witness :
    (relayRequest ⟨"http://global.example/cb", "global-secret"⟩
        ⟨"m2", "t1", "d1", "completed",
         ⟨some "X", some 7, some 420, some 18, none⟩,
         100, none, 0, 100, none⟩).url = "http://global.example/cb" ∧
    (relayRequest ⟨"http://global.example/cb", "global-secret"⟩
        ⟨"m2", "t1", "d1", "completed",
         ⟨some "X", some 7, some 420, some 18, none⟩,
         100, none, 0, 100, none⟩).signatureKey = "global-secret" ∧
    (relayRequest ⟨"http://global.example/cb", "global-secret"⟩
        ⟨"m2", "t1", "d1", "completed",
         ⟨some "X", some 7, some 420, some 18, none⟩,
         100, none, 0, 100, none⟩).body =
      buildCallbackData "t1" "d1" "completed"
        ⟨some "X", some 7, some 420, some 18, none⟩ :=
  relay_callback_provenance ⟨"http://global.example/cb", "global-secret"⟩
    emptyOutbox 100 "m2" "t1" "d1" "completed"
    ⟨some "X", some 7, some 420, some 18, none⟩
    ⟨"m2", "t1", "d1", "completed",
     ⟨some "X", some 7, some 420, some 18, none⟩, 100, none, 0, 100, none⟩
    (by decide)

/-- Claim C9: a batch of exactly 100 products is accepted with 202, but a batch
of 101 products is answered 500, not 400 — the handler raises
`HTTPException(400, …)` inside its `try` block and the blanket `except
Exception` clause (which, unlike the sibling handler, has no `except
HTTPException: raise` guard) swallows it and re-raises a 500 wrapping
`str(e)`. -/
theorem product_batch_size_boundary :
    processProductBatchHandler (List.replicate 100 "product") "b1" =
      .accepted "b1" "pending" 100 0 ∧
    processProductBatchHandler (List.replicate 101 "product") "b1" =
      .httpError 500
        ("Ошибка при создании батча товаров: 400: " ++
         tooManyProductsDetail 100) := by
  decide

end KtruClassifier
